import Mathlib

/-!
Verification of the order-lifecycle behaviour of the sovereign-empire-api
repository.  The development shallowly embeds the three API variants that the
specification's claims cite:

* `Api` — the in-memory variant `src/api.py` (global `orders_db` list,
  count-based order ids, full CRUD endpoints);
* `EmailApi` — the database-backed variant `src/api_with_email_notification.py`
  together with the schema of `src/database.py` (`OrderStatus` enum, `Order`
  rows, `audit_logs` table);
* `Content` — the in-memory variant `src/content_api.py` (validation of
  package tiers and totals, background generation).

Timestamps and freshly generated identifiers (`datetime.now()`, `uuid4`) are
passed as explicit parameters; decimal dollar amounts are modelled exactly as
integers counting cents (359.00 becomes 35900, the 0.01 tolerance becomes 1).
-/

/-- Decidable equality on `Except`, so that concrete endpoint results can be
checked by `decide`. -/
instance {ε α : Type} [DecidableEq ε] [DecidableEq α] :
    DecidableEq (Except ε α) := fun x y =>
  match x, y with
  | .error a, .error b =>
    if h : a = b then .isTrue (congrArg Except.error h)
    else .isFalse (fun hc => h (Except.error.inj hc))
  | .error _, .ok _ => .isFalse (fun hc => Except.noConfusion hc)
  | .ok _, .error _ => .isFalse (fun hc => Except.noConfusion hc)
  | .ok a, .ok b =>
    if h : a = b then .isTrue (congrArg Except.ok h)
    else .isFalse (fun hc => h (Except.ok.inj hc))

namespace Api

/-- One entry of the global `orders_db` list in `src/api.py`.  The seed
dictionaries for one-time orders lack the `billing_cycle` / `total_billed`
keys; the code only reads them through `.get(..., default)`, so a missing key
is modelled as `none` / `0`. -/
structure ApiOrder where
  order_id : String
  customer_name : String
  customer_email : String
  industry : String
  topic : String
  wordpress_url : String
  tenant_id : String
  order_type : String
  package_type : String
  status : String
  price : Int
  paid : Bool
  created_at : String
  next_billing_date : Option String
  billing_cycle : Option String
  total_billed : Int
  deriving Repr, DecidableEq

/-- Request body of `POST /api/orders/create` (pydantic model `OrderCreate`). -/
structure OrderCreate where
  customer_name : String
  customer_email : String
  industry : String
  topic : String
  wordpress_url : String := ""
  tenant_id : String
  order_type : String := "one_time"
  package_type : String := "dominance"
  price : Int := 49700
  paid : Bool := false
  deriving Repr, DecidableEq

/-- Request body of `PUT /api/orders/{order_id}` (pydantic model `OrderUpdate`). -/
structure OrderUpdate where
  status : Option String := none
  price : Option Int := none
  paid : Option Bool := none
  package_type : Option String := none
  order_type : Option String := none
  next_billing_date : Option String := none
  deriving Repr, DecidableEq

/-- Python `f"{n:04d}"`: decimal digits left-padded with zeros to width 4. -/
def pad4 (n : Nat) : String :=
  let s := toString n
  if s.length < 4 then String.mk (List.replicate (4 - s.length) '0') ++ s else s

def ord1 : ApiOrder :=
  { order_id := "ORD-0001", customer_name := "John Smith",
    customer_email := "john@example.com", industry := "Dental Practice",
    topic := "Dental SEO", wordpress_url := "https://johnsdental.com",
    tenant_id := "DIRECT_CUSTOMER", order_type := "one_time",
    package_type := "dominance", status := "completed", price := 49700,
    paid := true, created_at := "2024-01-01T10:00:00",
    next_billing_date := none, billing_cycle := none, total_billed := 0 }

def ord2 : ApiOrder :=
  { order_id := "ORD-0002", customer_name := "Sarah Johnson",
    customer_email := "sarah@example.com", industry := "Plumbing",
    topic := "Local Plumbing SEO", wordpress_url := "https://sarahsplumbing.com",
    tenant_id := "DIRECT_CUSTOMER", order_type := "one_time",
    package_type := "dominance", status := "in_progress", price := 49700,
    paid := true, created_at := "2024-01-02T11:30:00",
    next_billing_date := none, billing_cycle := none, total_billed := 0 }

def ord3 : ApiOrder :=
  { order_id := "ORD-0003", customer_name := "Mike Wilson",
    customer_email := "mike@example.com", industry := "Law Firm",
    topic := "Legal Services Marketing", wordpress_url := "https://wilsonlaw.com",
    tenant_id := "DIRECT_CUSTOMER", order_type := "one_time",
    package_type := "boost", status := "pending", price := 35900,
    paid := true, created_at := "2024-01-03T14:45:00",
    next_billing_date := none, billing_cycle := none, total_billed := 0 }

def sub1 : ApiOrder :=
  { order_id := "SUB-0001", customer_name := "Emma Davis",
    customer_email := "emma@example.com", industry := "HVAC Services",
    topic := "Monthly SEO Maintenance", wordpress_url := "https://davishvac.com",
    tenant_id := "DIRECT_CUSTOMER", order_type := "monthly",
    package_type := "retainer", status := "active", price := 29700,
    paid := true, created_at := "2024-01-04T09:15:00",
    next_billing_date := some "2024-02-04T09:15:00",
    billing_cycle := some "monthly", total_billed := 29700 }

def ord5 : ApiOrder :=
  { order_id := "ORD-0005", customer_name := "Robert Brown",
    customer_email := "robert@example.com", industry := "Car Detailing",
    topic := "Auto Detailing Marketing", wordpress_url := "https://browndetailing.com",
    tenant_id := "DIRECT_CUSTOMER", order_type := "one_time",
    package_type := "boost", status := "pending", price := 35900,
    paid := true, created_at := "2024-01-05T16:20:00",
    next_billing_date := none, billing_cycle := none, total_billed := 0 }

def sub2 : ApiOrder :=
  { order_id := "SUB-0002", customer_name := "Lisa Taylor",
    customer_email := "lisa@example.com", industry := "Cleaning Services",
    topic := "Monthly Content Strategy", wordpress_url := "https://taylorcleaning.com",
    tenant_id := "DIRECT_CUSTOMER", order_type := "monthly",
    package_type := "retainer", status := "active", price := 29700,
    paid := true, created_at := "2024-01-06T13:10:00",
    next_billing_date := some "2024-02-06T13:10:00",
    billing_cycle := some "monthly", total_billed := 29700 }

/-- The seeded `orders_db` list of `src/api.py`. -/
def initialOrdersDb : List ApiOrder := [ord1, ord2, ord3, sub1, ord5, sub2]

/-- `create_order` of `src/api.py` (lines 171-226).  `now` stands for
`datetime.now().isoformat()` and `billingDate` for
`(datetime.now() + timedelta(days=30)).isoformat()`.  Returns the new order
(which the endpoint echoes back) together with the updated store. -/
def create_order (db : List ApiOrder) (order : OrderCreate) (now : String)
    (billingDate : String) : ApiOrder × List ApiOrder :=
  let order_number :=
    if order.order_type = "monthly" then
      (db.filter (fun o => o.order_type == "monthly")).length + 1
    else
      (db.filter (fun o => o.order_type == "one_time")).length + 1
  let order_id :=
    (if order.order_type = "monthly" then "SUB" else "ORD") ++ "-" ++ pad4 order_number
  let price : Int :=
    if order.package_type = "boost" then 35900
    else if order.package_type = "dominance" then 49700
    else if order.package_type = "retainer" then 29700
    else order.price
  let next_billing_date : Option String :=
    if order.order_type = "monthly" ∧ order.paid = true then some billingDate else none
  let total_billed : Int :=
    if order.order_type = "monthly" ∧ order.paid = true then price else 0
  let new_order : ApiOrder :=
    { order_id := order_id
      customer_name := order.customer_name
      customer_email := order.customer_email
      industry := order.industry
      topic := order.topic
      wordpress_url := order.wordpress_url
      tenant_id := order.tenant_id
      order_type := order.order_type
      package_type := order.package_type
      status := if order.order_type = "one_time" then "pending" else "active"
      price := price
      paid := order.paid
      created_at := now
      next_billing_date := next_billing_date
      billing_cycle := if order.order_type = "monthly" then some "monthly" else none
      total_billed := total_billed }
  (new_order, db ++ [new_order])

/-- `if update.status:` — a `None` or empty-string value is Python-falsy and
skipped, any other string is assigned. -/
def upStatus (u : OrderUpdate) (o : ApiOrder) : ApiOrder :=
  match u.status with
  | some s => if s ≠ "" then { o with status := s } else o
  | none => o

/-- `if update.price is not None:` — assign the price, and additionally copy
it into `total_billed` when the order is a paid monthly subscription.  (The
price assignment does not touch `order_type`/`paid`, so testing them on the
original order is equivalent to the source's in-place sequence.) -/
def upPrice (u : OrderUpdate) (o : ApiOrder) : ApiOrder :=
  match u.price with
  | some p =>
    if o.order_type = "monthly" ∧ o.paid = true then
      { o with price := p, total_billed := p }
    else { o with price := p }
  | none => o

/-- `if update.paid is not None:`. -/
def upPaid (u : OrderUpdate) (o : ApiOrder) : ApiOrder :=
  match u.paid with
  | some b => { o with paid := b }
  | none => o

/-- `if update.package_type:`. -/
def upPackageType (u : OrderUpdate) (o : ApiOrder) : ApiOrder :=
  match u.package_type with
  | some s => if s ≠ "" then { o with package_type := s } else o
  | none => o

/-- `if update.order_type:`. -/
def upOrderType (u : OrderUpdate) (o : ApiOrder) : ApiOrder :=
  match u.order_type with
  | some s => if s ≠ "" then { o with order_type := s } else o
  | none => o

/-- `if update.next_billing_date:`. -/
def upNextBilling (u : OrderUpdate) (o : ApiOrder) : ApiOrder :=
  match u.next_billing_date with
  | some s => if s ≠ "" then { o with next_billing_date := some s } else o
  | none => o

/-- The field assignments performed on a matched order by `update_order`
(`src/api.py` lines 623-637), in source order: status, price (with the
`total_billed` side effect), paid, package_type, order_type,
next_billing_date. -/
def applyUpdate (o : ApiOrder) (u : OrderUpdate) : ApiOrder :=
  upNextBilling u (upOrderType u (upPackageType u (upPaid u (upPrice u (upStatus u o)))))

/-- `update_order` of `src/api.py`: mutate the first order whose id matches
and return it; `none` models the 404 response. -/
def update_order (db : List ApiOrder) (order_id : String) (u : OrderUpdate) :
    Option ApiOrder × List ApiOrder :=
  match db with
  | [] => (none, [])
  | o :: rest =>
    if o.order_id = order_id then
      let o2 := applyUpdate o u
      (some o2, o2 :: rest)
    else
      let r := update_order rest order_id u
      (r.1, o :: r.2)

/-- `delete_order` of `src/api.py` (lines 641-650): rebuild `orders_db`
without the matching orders; 404 (`none`) when the length did not change. -/
def delete_order (db : List ApiOrder) (order_id : String) :
    Option (List ApiOrder) :=
  if (db.filter (fun o => o.order_id != order_id)).length = db.length then none
  else some (db.filter (fun o => o.order_id != order_id))

/-- `list_orders` of `src/api.py` (lines 608-610): returns `orders_db` as is,
with no filter parameter and no sorting. -/
def list_orders (db : List ApiOrder) : List ApiOrder := db

end Api

namespace EmailApi

/-- `OrderStatus` from `src/database.py` (lines 29-38). -/
inductive OrderStatus
  | PENDING
  | PROCESSING
  | PENDING_APPROVAL
  | APPROVED
  | PUBLISHING
  | COMPLETED
  | FAILED
  | CANCELLED
  deriving Repr, DecidableEq

/-- The string value of each `OrderStatus` member. -/
def OrderStatus.value : OrderStatus → String
  | .PENDING => "pending"
  | .PROCESSING => "processing"
  | .PENDING_APPROVAL => "pending_approval"
  | .APPROVED => "approved"
  | .PUBLISHING => "publishing"
  | .COMPLETED => "completed"
  | .FAILED => "failed"
  | .CANCELLED => "cancelled"

/-- Python `OrderStatus(s)`: look a member up by its value; `none` models the
`ValueError` raised for an unrecognised string. -/
def OrderStatus.ofString? (s : String) : Option OrderStatus :=
  if s = "pending" then some .PENDING
  else if s = "processing" then some .PROCESSING
  else if s = "pending_approval" then some .PENDING_APPROVAL
  else if s = "approved" then some .APPROVED
  else if s = "publishing" then some .PUBLISHING
  else if s = "completed" then some .COMPLETED
  else if s = "failed" then some .FAILED
  else if s = "cancelled" then some .CANCELLED
  else none

/-- An `orders` row as used by `src/api_with_email_notification.py`: the
fields that variant reads or writes, typed per `src/database.py` (`retry_count`
defaults to 0, timestamps modelled as naturals). -/
structure EmailOrder where
  order_id : String
  customer_email : String
  customer_name : Option String
  tenant_id : String
  topic : String
  industry : Option String
  tone : Option String
  status : OrderStatus
  total_price : Int
  wordpress_url : Option String
  created_at : Nat
  updated_at : Nat
  retry_count : Nat
  deriving Repr, DecidableEq

/-- An `audit_logs` row from `src/database.py` (lines 106-117). -/
structure AuditEntry where
  id : Nat
  action : String
  entity_type : String
  entity_id : String
  user_id : Option String
  details : String
  timestamp : Nat
  ip_address : Option String
  deriving Repr, DecidableEq

/-- The database state visible to the email-variant endpoints: the `orders`
table and the `audit_logs` table. -/
structure DbState where
  orders : List EmailOrder
  audit_logs : List AuditEntry
  deriving Repr, DecidableEq

/-- Request body of `POST /api/orders/create` (pydantic `OrderCreateRequest`). -/
structure OrderCreateRequest where
  customer_email : String
  customer_name : Option String := none
  tenant_id : String := "DIRECT_CUSTOMER"
  topic : String
  industry : Option String := none
  tone : Option String := some "professional"
  wordpress_url : Option String := none
  deriving Repr, DecidableEq

/-- Response model `OrderResponse` of the email variant. -/
structure OrderResponse where
  order_id : String
  status : String
  message : String
  created_at : Nat
  payment_url : Option String := none
  deriving Repr, DecidableEq

/-- The row inserted by `create_order` of
`src/api_with_email_notification.py` (lines 446-458): status `PENDING`,
`total_price` fixed at 79.00 dollars (7900 cents), `retry_count` at its column default 0. -/
def newOrder (req : OrderCreateRequest) (order_id : String) (now : Nat) :
    EmailOrder :=
  { order_id := order_id
    customer_email := req.customer_email
    customer_name := req.customer_name
    tenant_id := req.tenant_id
    topic := req.topic
    industry := req.industry
    tone := req.tone
    status := OrderStatus.PENDING
    total_price := 7900
    wordpress_url := req.wordpress_url
    created_at := now
    updated_at := now
    retry_count := 0 }

/-- `create_order` of `src/api_with_email_notification.py` (lines 437-479).
`order_id` stands for the freshly generated `ORD_{uuid4().hex[:12].upper()}`
and `now` for the insertion timestamp.  The email side effect does not touch
the database (and failures there are swallowed), so it does not appear in the
state. -/
def create_order (s : DbState) (req : OrderCreateRequest) (order_id : String)
    (now : Nat) : OrderResponse × DbState :=
  let order := newOrder req order_id now
  ({ order_id := order.order_id
     status := order.status.value
     message := "Order created successfully. Awaiting payment confirmation."
     created_at := order.created_at
     payment_url := none },
   { s with orders := s.orders ++ [order] })

/-- `session.query(Order).filter(Order.order_id == oid).first()` followed by
the status/updated_at assignment: update the first matching row, returning it
and the new table. -/
def setStatusFirst (orders : List EmailOrder) (oid : String) (st : OrderStatus)
    (now : Nat) : Option (EmailOrder × List EmailOrder) :=
  match orders with
  | [] => none
  | o :: rest =>
    if o.order_id = oid then
      let o2 := { o with status := st, updated_at := now }
      some (o2, o2 :: rest)
    else
      match setStatusFirst rest oid st now with
      | none => none
      | some (r, rest2) => some (r, o :: rest2)

inductive StatusUpdateError
  | invalidStatus
  | notFound
  deriving Repr, DecidableEq

/-- Response dictionary of `PATCH /api/orders/{order_id}/status`. -/
structure StatusUpdateResponse where
  order_id : String
  status : String
  message : String
  updated_at : Nat
  deriving Repr, DecidableEq

/-- `update_order_status` of `src/api_with_email_notification.py`
(lines 539-566): parse the requested status (400 on an unrecognised value),
look the order up (404 when absent), then assign the status and `updated_at`
unconditionally and commit. -/
def update_order_status (s : DbState) (order_id status_str : String)
    (now : Nat) : Except StatusUpdateError (StatusUpdateResponse × DbState) :=
  match OrderStatus.ofString? status_str with
  | none => .error .invalidStatus
  | some st =>
    match setStatusFirst s.orders order_id st now with
    | none => .error .notFound
    | some (o, orders2) =>
      .ok ({ order_id := o.order_id
             status := o.status.value
             message := "Order status updated to " ++ status_str
             updated_at := o.updated_at },
           { s with orders := orders2 })

/-- `ORDER BY created_at DESC`: an earlier element was created no earlier
than a later one. -/
def newestFirst (a b : EmailOrder) : Prop := b.created_at ≤ a.created_at

instance : DecidableRel newestFirst := fun a b =>
  inferInstanceAs (Decidable (b.created_at ≤ a.created_at))

instance : IsTotal EmailOrder newestFirst :=
  ⟨fun a b => le_total b.created_at a.created_at⟩

instance : IsTrans EmailOrder newestFirst :=
  ⟨fun _ _ _ h1 h2 => le_trans h2 h1⟩

inductive ListError
  | invalidStatus (s : String)
  deriving Repr, DecidableEq

/-- `list_orders` of `src/api_with_email_notification.py` (lines 506-536):
optionally filter by a status string (400 on an unrecognised value), then
return the rows ordered by `created_at` descending. -/
def list_orders (s : DbState) (statusFilter : Option String) :
    Except ListError (List EmailOrder) :=
  match statusFilter with
  | none => .ok (List.insertionSort newestFirst s.orders)
  | some str =>
    match OrderStatus.ofString? str with
    | none => .error (.invalidStatus str)
    | some st =>
      .ok (List.insertionSort newestFirst
        (s.orders.filter (fun o => o.status == st)))

end EmailApi

namespace Content

/-- Request body of `POST /api/orders/create` in `src/content_api.py`
(pydantic `ContentOrder`). -/
structure ContentOrder where
  business_type : String
  service_area : String
  package_tier : String := "dominance"
  customer_email : String
  customer_name : String
  order_total : Int
  special_instructions : Option String := none
  deriving Repr, DecidableEq

inductive ValidationError
  | invalidTier (tier : String)
  | priceMismatch (total expected : Int)
  deriving Repr, DecidableEq

/-- The dictionary returned by `validate_order_data`. -/
structure ValidationInfo where
  expected_price : Int
  package_name : String
  deriving Repr, DecidableEq

/-- Python `abs` on an integer amount of cents. -/
def pyAbs (q : Int) : Int := if q < 0 then -q else q

/-- `validate_order_data` of `src/content_api.py` (lines 51-78): the tier must
be `jumpstart` or `dominance`, and the order total must match the tier price
up to the 0.01 rounding allowance; HTTP 400 responses are modelled as
`ValidationError`. -/
def validate_order_data (order : ContentOrder) :
    Except ValidationError ValidationInfo :=
  if order.package_tier ∉ ["jumpstart", "dominance"] then
    .error (.invalidTier order.package_tier)
  else
    let expected_price : Int := if order.package_tier = "jumpstart" then 35900 else 49700
    if pyAbs (order.order_total - expected_price) > 1 then
      .error (.priceMismatch order.order_total expected_price)
    else
      .ok { expected_price := expected_price
            package_name :=
              if order.package_tier = "dominance" then
                "Google Visibility Dominance"
              else "Google Visibility Jumpstart" }

/-- The order record stored in the `orders_db` dictionary by `create_order`
of `src/content_api.py` (lines 206-226); the nested `customer` / `business` /
`package` dictionaries are flattened into fields. -/
structure ContentRecord where
  order_id : String
  created_at : String
  customer_name : String
  customer_email : String
  business_type : String
  service_area : String
  package_tier : String
  package_name : String
  price : Int
  status : String
  special_instructions : Option String
  files : List String
  download_path : Option String
  deriving Repr, DecidableEq

/-- The record built for an accepted order: status `processing`, no files and
no download path yet (the generation task runs only afterwards, in the
background). -/
def newRecord (order : ContentOrder) (v : ValidationInfo) (order_id : String)
    (now : String) : ContentRecord :=
  { order_id := order_id
    created_at := now
    customer_name := order.customer_name
    customer_email := order.customer_email
    business_type := order.business_type
    service_area := order.service_area
    package_tier := order.package_tier
    package_name := v.package_name
    price := order.order_total
    status := "processing"
    special_instructions := order.special_instructions
    files := []
    download_path := none }

/-- Response model `OrderResponse` of `src/content_api.py`. -/
structure ContentOrderResponse where
  order_id : String
  status : String
  message : String
  download_url : Option String
  estimated_completion : String
  price_paid : Int
  deriving Repr, DecidableEq

/-- `create_order` of `src/content_api.py` (lines 195-248): validate first
(a rejected request leaves `orders_db` untouched), then store the record under
the fresh id, schedule generation as a background task, and answer
immediately.  `order_id` stands for `generate_order_id()` and `now` for
`datetime.now().isoformat()`. -/
def create_order (db : List (String × ContentRecord)) (order : ContentOrder)
    (order_id : String) (now : String) :
    Except ValidationError ContentOrderResponse × List (String × ContentRecord) :=
  match validate_order_data order with
  | .error e => (.error e, db)
  | .ok validation =>
    let record := newRecord order validation order_id now
    (.ok { order_id := order_id
           status := "processing"
           message := "Premium content order created for " ++ order.business_type
             ++ " in " ++ order.service_area ++ ". Generation in progress."
           download_url := some ("/api/orders/" ++ order_id ++ "/download")
           estimated_completion := "10-15 minutes"
           price_paid := order.order_total },
     db ++ [(order_id, record)])

end Content

namespace Api

/-- A concrete one-time creation request (the §8 Scenario A data). -/
def reqDental : OrderCreate :=
  { customer_name := "John Smith", customer_email := "john@example.com",
    industry := "Dental Practice", topic := "Dental SEO", wordpress_url := "",
    tenant_id := "T1", order_type := "one_time", package_type := "dominance",
    price := 49700, paid := false }

/-- A concrete monthly creation request. -/
def reqMonthly : OrderCreate :=
  { customer_name := "Emma Davis", customer_email := "emma@example.com",
    industry := "HVAC Services", topic := "Monthly SEO Maintenance",
    wordpress_url := "", tenant_id := "T1", order_type := "monthly",
    package_type := "retainer", price := 29700, paid := true }

/-- An update request carrying only a new status. -/
def u0 : OrderUpdate := { status := some "pending" }

/-- The seed order `ORD-0001` after `update_order` applied `u0` to it. -/
def ord1Pending : ApiOrder := { ord1 with status := "pending" }

/-- The store left behind by `delete_order initialOrdersDb "ORD-0001"`. -/
def db5 : List ApiOrder := [ord2, ord3, sub1, ord5, sub2]

end Api

namespace EmailApi

/-- A stored order in `FAILED` state whose retry counter already equals the
retry bound 3 (the `max_retries` default of `src/database.py`). -/
def failedOrder : EmailOrder :=
  { order_id := "ORD_F1", customer_email := "cust@example.com",
    customer_name := none, tenant_id := "DIRECT_CUSTOMER",
    topic := "Dental SEO basics", industry := none,
    tone := some "professional", status := .FAILED, total_price := 7900,
    wordpress_url := none, created_at := 1, updated_at := 1, retry_count := 3 }

def s3 : DbState := { orders := [failedOrder], audit_logs := [] }

def resp3 : StatusUpdateResponse :=
  { order_id := "ORD_F1", status := "pending",
    message := "Order status updated to pending", updated_at := 2 }

def s3After : DbState :=
  { orders := [{ failedOrder with status := .PENDING, updated_at := 2 }],
    audit_logs := [] }

/-- A stored order in `PENDING` state. -/
def pendingOrder : EmailOrder :=
  { failedOrder with order_id := "ORD_P1", status := .PENDING, retry_count := 0 }

def s4 : DbState := { orders := [pendingOrder], audit_logs := [] }

def resp4 : StatusUpdateResponse :=
  { order_id := "ORD_P1", status := "processing",
    message := "Order status updated to processing", updated_at := 2 }

def s4After : DbState :=
  { orders := [{ pendingOrder with status := .PROCESSING, updated_at := 2 }],
    audit_logs := [] }

/-- Three stored orders with distinct creation times and statuses. -/
def e1 : EmailOrder :=
  { order_id := "ORD_A", customer_email := "a@example.com",
    customer_name := none, tenant_id := "DIRECT_CUSTOMER",
    topic := "Topic A here", industry := none, tone := some "professional",
    status := .PENDING, total_price := 7900, wordpress_url := none,
    created_at := 1, updated_at := 1, retry_count := 0 }

def e2 : EmailOrder := { e1 with order_id := "ORD_B", created_at := 5, updated_at := 5 }

def e3 : EmailOrder :=
  { e1 with order_id := "ORD_C", created_at := 3, updated_at := 3, status := .COMPLETED }

def s9 : DbState := { orders := [e1, e2, e3], audit_logs := [] }

/-- The listing `list_orders s9 (some "pending")` produces. -/
def lw : List EmailOrder := [e2, e1]

end EmailApi

namespace Content

/-- A creation request with an unrecognised package tier (`retainer` is sold
on the packages page but is not a valid tier for `validate_order_data`). -/
def badOrder : ContentOrder :=
  { business_type := "Plumbing", service_area := "Austin TX",
    package_tier := "retainer", customer_email := "test@example.com",
    customer_name := "Test Client", order_total := 29700,
    special_instructions := none }

/-- A valid `dominance` creation request (the request of `src/test_api.py`). -/
def validOrder : ContentOrder :=
  { business_type := "Plumbing", service_area := "Austin TX",
    package_tier := "dominance", customer_email := "test@example.com",
    customer_name := "Test Client", order_total := 49700,
    special_instructions := none }

/-- The validation payload `validate_order_data` returns for `validOrder`. -/
def v497 : ValidationInfo :=
  { expected_price := 49700, package_name := "Google Visibility Dominance" }

end Content

/-! ## Helper lemmas -/

theorem upStatus_order_id (u : Api.OrderUpdate) (o : Api.ApiOrder) :
    (Api.upStatus u o).order_id = o.order_id := by
  unfold Api.upStatus
  cases u.status with
  | none => rfl
  | some s => dsimp only; split_ifs <;> rfl

theorem upPrice_order_id (u : Api.OrderUpdate) (o : Api.ApiOrder) :
    (Api.upPrice u o).order_id = o.order_id := by
  unfold Api.upPrice
  cases u.price with
  | none => rfl
  | some p => dsimp only; split_ifs <;> rfl

theorem upPaid_order_id (u : Api.OrderUpdate) (o : Api.ApiOrder) :
    (Api.upPaid u o).order_id = o.order_id := by
  unfold Api.upPaid
  cases u.paid with
  | none => rfl
  | some b => rfl

theorem upPackageType_order_id (u : Api.OrderUpdate) (o : Api.ApiOrder) :
    (Api.upPackageType u o).order_id = o.order_id := by
  unfold Api.upPackageType
  cases u.package_type with
  | none => rfl
  | some s => dsimp only; split_ifs <;> rfl

theorem upOrderType_order_id (u : Api.OrderUpdate) (o : Api.ApiOrder) :
    (Api.upOrderType u o).order_id = o.order_id := by
  unfold Api.upOrderType
  cases u.order_type with
  | none => rfl
  | some s => dsimp only; split_ifs <;> rfl

theorem upNextBilling_order_id (u : Api.OrderUpdate) (o : Api.ApiOrder) :
    (Api.upNextBilling u o).order_id = o.order_id := by
  unfold Api.upNextBilling
  cases u.next_billing_date with
  | none => rfl
  | some s => dsimp only; split_ifs <;> rfl

theorem applyUpdate_order_id (o : Api.ApiOrder) (u : Api.OrderUpdate) :
    (Api.applyUpdate o u).order_id = o.order_id := by
  unfold Api.applyUpdate
  rw [upNextBilling_order_id, upOrderType_order_id, upPackageType_order_id,
    upPaid_order_id, upPrice_order_id, upStatus_order_id]

theorem upPrice_status (u : Api.OrderUpdate) (o : Api.ApiOrder) :
    (Api.upPrice u o).status = o.status := by
  unfold Api.upPrice
  cases u.price with
  | none => rfl
  | some p => dsimp only; split_ifs <;> rfl

theorem upPaid_status (u : Api.OrderUpdate) (o : Api.ApiOrder) :
    (Api.upPaid u o).status = o.status := by
  unfold Api.upPaid
  cases u.paid with
  | none => rfl
  | some b => rfl

theorem upPackageType_status (u : Api.OrderUpdate) (o : Api.ApiOrder) :
    (Api.upPackageType u o).status = o.status := by
  unfold Api.upPackageType
  cases u.package_type with
  | none => rfl
  | some s => dsimp only; split_ifs <;> rfl

theorem upOrderType_status (u : Api.OrderUpdate) (o : Api.ApiOrder) :
    (Api.upOrderType u o).status = o.status := by
  unfold Api.upOrderType
  cases u.order_type with
  | none => rfl
  | some s => dsimp only; split_ifs <;> rfl

theorem upNextBilling_status (u : Api.OrderUpdate) (o : Api.ApiOrder) :
    (Api.upNextBilling u o).status = o.status := by
  unfold Api.upNextBilling
  cases u.next_billing_date with
  | none => rfl
  | some s => dsimp only; split_ifs <;> rfl

theorem upStatus_status_some (u : Api.OrderUpdate) (o : Api.ApiOrder)
    (s : String) (hs : u.status = some s) (hne : s ≠ "") :
    (Api.upStatus u o).status = s := by
  unfold Api.upStatus
  rw [hs]
  simp [hne]

theorem applyUpdate_status (o : Api.ApiOrder) (u : Api.OrderUpdate) (s : String)
    (hs : u.status = some s) (hne : s ≠ "") :
    (Api.applyUpdate o u).status = s := by
  unfold Api.applyUpdate
  rw [upNextBilling_status, upOrderType_status, upPackageType_status,
    upPaid_status, upPrice_status, upStatus_status_some u o s hs hne]

theorem update_order_ids (db : List Api.ApiOrder) (oid : String)
    (u : Api.OrderUpdate) :
    ((Api.update_order db oid u).2).map (fun o => o.order_id) =
      db.map (fun o => o.order_id) := by
  induction db with
  | nil => rfl
  | cons o rest ih =>
    by_cases h : o.order_id = oid
    · simp [Api.update_order, h, applyUpdate_order_id]
    · simp [Api.update_order, h, ih]

/-! ## Claims about the in-memory variant `src/api.py` -/

/-- Claim C1, counterexample: `create_order` takes no idempotency key, so two
identical submissions of the same request yield two `Order` records with two
distinct order ids instead of one record and one repeated id. -/
theorem C1_counterexample :
    (Api.create_order [] Api.reqDental "t1" "b1").1.order_id = "ORD-0001" ∧
    (Api.create_order (Api.create_order [] Api.reqDental "t1" "b1").2
        Api.reqDental "t1" "b1").1.order_id = "ORD-0002" ∧
    (Api.create_order (Api.create_order [] Api.reqDental "t1" "b1").2
        Api.reqDental "t1" "b1").2.length = 2 ∧
    ("ORD-0001" : String) ≠ "ORD-0002" := by
  decide

/-- Claim C1 (amended): `create_order` accepts no idempotency key and performs
no deduplication — every call unconditionally appends exactly one new `Order`
record to the store, namely the record it returns, so N identical requests
create N records and there is no duplicate signal. -/
theorem C1_no_deduplication (db : List Api.ApiOrder) (r : Api.OrderCreate)
    (now billingDate : String) :
    (Api.create_order db r now billingDate).2 =
      db ++ [(Api.create_order db r now billingDate).1] := rfl

/-- Claim C2, counterexample: the seeded order `ORD-0001` has the terminal
status `completed`, yet `update_order` with a requested status of `pending`
moves it back to `pending`. -/
theorem C2_counterexample :
    Api.ord1.status = "completed" ∧
    (Api.update_order Api.initialOrdersDb "ORD-0001" Api.u0).1 =
      some Api.ord1Pending ∧
    Api.ord1Pending.status = "pending" := by
  decide

/-- Claim C2 (amended): `update_order` applies any non-empty requested status
to the matched order unconditionally — there is no terminal-state guard, so an
order in `completed` or `cancelled` can be moved to any other status. -/
theorem C2_status_overwritten (db : List Api.ApiOrder) (oid : String)
    (u : Api.OrderUpdate) (o : Api.ApiOrder) (s : String)
    (h1 : (Api.update_order db oid u).1 = some o)
    (h2 : u.status = some s) (h3 : s ≠ "") : o.status = s := by
  induction db with
  | nil => simp [Api.update_order] at h1
  | cons hd rest ih =>
    rw [Api.update_order] at h1
    by_cases h : hd.order_id = oid
    · rw [if_pos h] at h1
      have h4 : Api.applyUpdate hd u = o := by simpa using h1
      rw [← h4]
      exact applyUpdate_status hd u s h2 h3
    · rw [if_neg h] at h1
      exact ih (by simpa using h1)

/-- Claim C2, witness: instantiating the amended theorem on the seeded store,
the completed order `ORD-0001` ends up with status `pending`. -/
theorem C2_witness : Api.ord1Pending.status = "pending" :=
  C2_status_overwritten Api.initialOrdersDb "ORD-0001" Api.u0 Api.ord1Pending
    "pending" (by decide) (by decide) (by decide)

/-- Claim C5, counterexample: the seeded order `ORD-0001` is present in the
store, and the public `DELETE /api/orders/ORD-0001` operation removes its
record entirely. -/
theorem C5_counterexample :
    Api.ord1 ∈ Api.initialOrdersDb ∧
    Api.delete_order Api.initialOrdersDb "ORD-0001" = some Api.db5 ∧
    Api.ord1 ∉ Api.db5 := by
  decide

/-- Claim C5 (amended): the public interface exposes `delete_order`, which
physically removes records: a successful delete leaves no record carrying the
deleted id and strictly shrinks the store. -/
theorem C5_delete_is_physical (db : List Api.ApiOrder) (oid : String)
    (db' : List Api.ApiOrder) (h : Api.delete_order db oid = some db') :
    db'.all (fun o => o.order_id != oid) = true ∧ db'.length < db.length := by
  unfold Api.delete_order at h
  by_cases hl : (db.filter (fun o => o.order_id != oid)).length = db.length
  · rw [if_pos hl] at h
    simp at h
  · rw [if_neg hl] at h
    have h4 : db.filter (fun o => o.order_id != oid) = db' := Option.some.inj h
    subst h4
    refine ⟨?_, ?_⟩
    · rw [List.all_eq_true]
      intro o ho
      exact (List.mem_filter.mp ho).2
    · exact lt_of_le_of_ne (List.length_filter_le _ _) hl

/-- Claim C5, witness: deleting `ORD-0001` from the seeded store leaves no
record with that id and shrinks the store from 6 records to 5. -/
theorem C5_witness :
    Api.db5.all (fun o => o.order_id != "ORD-0001") = true ∧
    Api.db5.length < Api.initialOrdersDb.length :=
  C5_delete_is_physical Api.initialOrdersDb "ORD-0001" Api.db5 (by decide)

/-- Claim C6, counterexample: on the seeded store (which already contains
`ORD-0005` but only four one-time orders), creating one more one-time order
generates the id `ORD-0005` again, so two stored records share one id. -/
theorem C6_counterexample :
    Api.ord5 ∈ Api.initialOrdersDb ∧
    Api.ord5.order_id = "ORD-0005" ∧
    (Api.create_order Api.initialOrdersDb Api.reqDental "t" "b").1.order_id =
      "ORD-0005" ∧
    ((Api.create_order Api.initialOrdersDb Api.reqDental "t" "b").2.filter
        (fun o => o.order_id == "ORD-0005")).length = 2 := by
  decide

/-- Claim C6 (amended): order ids are generated by the server — the id is a
pure function of the store contents and the requested order type, a creation
request carries no id field — and `update_order` never changes any stored
order's id; but ids are not unique: the count-based scheme can reissue an id
that is already in the store. -/
theorem C6_ids_generated_and_immutable :
    (∀ (db : List Api.ApiOrder) (r : Api.OrderCreate) (now bill : String),
      (Api.create_order db r now bill).1.order_id =
        (if r.order_type = "monthly" then "SUB" else "ORD") ++ "-" ++
          Api.pad4 (if r.order_type = "monthly" then
              (db.filter (fun o => o.order_type == "monthly")).length + 1
            else
              (db.filter (fun o => o.order_type == "one_time")).length + 1)) ∧
    (∀ (db : List Api.ApiOrder) (oid : String) (u : Api.OrderUpdate),
      ((Api.update_order db oid u).2).map (fun o => o.order_id) =
        db.map (fun o => o.order_id)) :=
  ⟨fun _ _ _ _ => rfl, fun db oid u => update_order_ids db oid u⟩

/-- Claim C10: the price stored by `create_order` of `src/api.py` is forced to
359.00, 497.00 or 297.00 for the package types `boost`, `dominance` and
`retainer` respectively, regardless of the price carried by the request; the
client-supplied price is used only for any other package type. -/
theorem C10_package_price_forced (db : List Api.ApiOrder) (r : Api.OrderCreate)
    (now bill : String) :
    (Api.create_order db r now bill).1.price =
      (if r.package_type = "boost" then (35900 : Int)
       else if r.package_type = "dominance" then 49700
       else if r.package_type = "retainer" then 29700
       else r.price) := rfl

/-! ## Claims about the database-backed and content variants -/

theorem setStatusFirst_status (orders : List EmailApi.EmailOrder) (oid : String)
    (st : EmailApi.OrderStatus) (now : Nat) (o : EmailApi.EmailOrder)
    (orders2 : List EmailApi.EmailOrder)
    (h : EmailApi.setStatusFirst orders oid st now = some (o, orders2)) :
    o.status = st := by
  induction orders generalizing orders2 with
  | nil => simp [EmailApi.setStatusFirst] at h
  | cons hd rest ih =>
    rw [EmailApi.setStatusFirst] at h
    by_cases hid : hd.order_id = oid
    · rw [if_pos hid] at h
      have h2 := Option.some.inj h
      have h3 : ({ hd with status := st, updated_at := now } :
          EmailApi.EmailOrder) = o := congrArg Prod.fst h2
      rw [← h3]
    · rw [if_neg hid] at h
      cases hrec : EmailApi.setStatusFirst rest oid st now with
      | none => rw [hrec] at h; simp at h
      | some pr =>
        obtain ⟨r0, rest2⟩ := pr
        rw [hrec] at h
        have h2 := Option.some.inj h
        have h3 : r0 = o := congrArg Prod.fst h2
        rw [h3] at hrec
        exact ih rest2 hrec

/-- Claim C3, counterexample: a stored order in `FAILED` state whose retry
counter already equals the bound 3 is not rejected by the only exposed
status-mutating action — `update_order_status` happily moves it to `pending`
with no `RetryExhausted` condition. -/
theorem C3_counterexample :
    EmailApi.failedOrder.status = .FAILED ∧
    EmailApi.failedOrder.retry_count = 3 ∧
    EmailApi.update_order_status EmailApi.s3 "ORD_F1" "pending" 2 =
      .ok (EmailApi.resp3, EmailApi.s3After) ∧
    EmailApi.s3After.orders.map (fun o => o.status) = [.PENDING] := by
  decide

/-- Claim C3 (amended): the service exposes no dedicated retry action; its
status-update endpoint accepts any recognised status for any existing order
without consulting the retry counter or the current status — whenever the
status string parses and the order exists, the update succeeds and reports the
requested status, never `RetryExhausted` or an invalid-state rejection. -/
theorem C3_no_retry_guard (s : EmailApi.DbState) (oid str : String)
    (st : EmailApi.OrderStatus) (now : Nat) (r : EmailApi.StatusUpdateResponse)
    (s' : EmailApi.DbState)
    (hp : EmailApi.OrderStatus.ofString? str = some st)
    (h : EmailApi.update_order_status s oid str now = .ok (r, s')) :
    r.status = st.value := by
  unfold EmailApi.update_order_status at h
  split at h
  · exact Except.noConfusion h
  · rename_i st2 heq
    rw [hp] at heq
    have h5 : st = st2 := Option.some.inj heq
    subst h5
    split at h
    · exact Except.noConfusion h
    · rename_i o orders2 heq2
      simp only [Except.ok.injEq, Prod.mk.injEq] at h
      obtain ⟨h1, h2⟩ := h
      rw [← h1]
      exact congrArg EmailApi.OrderStatus.value
        (setStatusFirst_status s.orders oid st now o orders2 heq2)

/-- Claim C3, witness: applying the amended theorem to the exhausted `FAILED`
order, the endpoint reports the freshly applied `pending` status. -/
theorem C3_witness :
    EmailApi.resp3.status = EmailApi.OrderStatus.PENDING.value :=
  C3_no_retry_guard EmailApi.s3 "ORD_F1" "pending" .PENDING 2 EmailApi.resp3
    EmailApi.s3After (by decide) (by decide)

/-- Claim C4, counterexample: `update_order_status` performs a status
transition (`PENDING` to `PROCESSING`) and appends nothing to the
`audit_logs` table, which stays empty. -/
theorem C4_counterexample :
    EmailApi.update_order_status EmailApi.s4 "ORD_P1" "processing" 2 =
      .ok (EmailApi.resp4, EmailApi.s4After) ∧
    EmailApi.s4.orders.map (fun o => o.status) = [.PENDING] ∧
    EmailApi.s4After.orders.map (fun o => o.status) = [.PROCESSING] ∧
    EmailApi.s4After.audit_logs = [] := by
  decide

/-- Claim C4 (amended): the status-update operation writes no audit entry at
all — every successful `update_order_status` call leaves the `audit_logs`
table exactly as it was, even though it changes the order's status. -/
theorem C4_no_audit_write (s : EmailApi.DbState) (oid str : String) (now : Nat)
    (r : EmailApi.StatusUpdateResponse) (s' : EmailApi.DbState)
    (h : EmailApi.update_order_status s oid str now = .ok (r, s')) :
    s'.audit_logs = s.audit_logs := by
  unfold EmailApi.update_order_status at h
  split at h
  · exact Except.noConfusion h
  · rename_i st heq
    split at h
    · exact Except.noConfusion h
    · rename_i o orders2 heq2
      simp only [Except.ok.injEq, Prod.mk.injEq] at h
      obtain ⟨h1, h2⟩ := h
      rw [← h2]

/-- Claim C4, witness: the concrete `PENDING` to `PROCESSING` transition
leaves the audit table unchanged. -/
theorem C4_witness : EmailApi.s4After.audit_logs = EmailApi.s4.audit_logs :=
  C4_no_audit_write EmailApi.s4 "ORD_P1" "processing" 2 EmailApi.resp4
    EmailApi.s4After (by decide)

/-- Claim C7: a creation request that fails `validate_order_data` (an
unrecognised package tier or an order total that does not match the tier
price) makes `create_order` of `src/content_api.py` return exactly that
validation error and leave the order store untouched. -/
theorem C7_validation_rejected_no_state_change (order : Content.ContentOrder)
    (db : List (String × Content.ContentRecord)) (oid now : String)
    (e : Content.ValidationError)
    (h : Content.validate_order_data order = .error e) :
    Content.create_order db order oid now = (.error e, db) := by
  unfold Content.create_order
  rw [h]

/-- Claim C7, witness: the tier `retainer` is rejected and the empty store
stays empty. -/
theorem C7_witness :
    Content.create_order [] Content.badOrder "SE-1" "t" =
      (.error (.invalidTier "retainer"), []) :=
  C7_validation_rejected_no_state_change Content.badOrder [] "SE-1" "t"
    (.invalidTier "retainer") (by decide)

/-- Claim C8, counterexample: the content variant stores an accepted order
with status `processing`, not `PENDING`, and `src/api.py` stores monthly
orders with status `active`, not `pending`. -/
theorem C8_counterexample :
    ((Content.create_order [] Content.validOrder "SE-1" "t").2.map
        (fun p => p.2.status)) = ["processing"] ∧
    ("processing" : String) ≠ "pending" ∧
    (Api.create_order [] Api.reqMonthly "t" "b").1.status = "active" ∧
    ("active" : String) ≠ "pending" := by
  decide

/-- Claim C8 (amended): every accepted creation returns the fresh order id and
defers processing — the database-backed variant stores the new order with
status `PENDING`; the content variant stores the accepted order with status
`processing`, with no generated files and no download path yet (generation is
scheduled as a background task); and `src/api.py` stores `pending` for
one-time orders but `active` for monthly ones. -/
theorem C8_creation_status_and_async :
    (∀ (s : EmailApi.DbState) (req : EmailApi.OrderCreateRequest)
        (oid : String) (now : Nat),
      (EmailApi.create_order s req oid now).2.orders =
        s.orders ++ [EmailApi.newOrder req oid now] ∧
      (EmailApi.newOrder req oid now).status = .PENDING ∧
      (EmailApi.create_order s req oid now).1.order_id = oid ∧
      (EmailApi.create_order s req oid now).1.status = "pending") ∧
    (∀ (db : List (String × Content.ContentRecord))
        (order : Content.ContentOrder) (oid now : String)
        (v : Content.ValidationInfo),
      Content.validate_order_data order = .ok v →
      (Content.create_order db order oid now).2 =
        db ++ [(oid, Content.newRecord order v oid now)] ∧
      (Content.create_order db order oid now).1.map (fun r => r.order_id) =
        .ok oid ∧
      (Content.newRecord order v oid now).status = "processing" ∧
      (Content.newRecord order v oid now).files = [] ∧
      (Content.newRecord order v oid now).download_path = none) ∧
    (∀ (db : List Api.ApiOrder) (r : Api.OrderCreate) (now bill : String),
      (Api.create_order db r now bill).1.status =
        (if r.order_type = "one_time" then "pending" else "active")) := by
  refine ⟨?_, ?_, ?_⟩
  · intro s req oid now
    exact ⟨rfl, rfl, rfl, rfl⟩
  · intro db order oid now v hv
    unfold Content.create_order
    rw [hv]
    exact ⟨rfl, rfl, rfl, rfl, rfl⟩
  · intro db r now bill
    rfl

/-- Claim C8, witness: the concrete valid `dominance` order is appended to the
store in status `processing` with no generated artifacts, and the response
carries the fresh id. -/
theorem C8_witness :
    (Content.create_order [] Content.validOrder "SE-1" "t").2 =
      [] ++ [("SE-1", Content.newRecord Content.validOrder Content.v497 "SE-1" "t")] ∧
    (Content.create_order [] Content.validOrder "SE-1" "t").1.map
      (fun r => r.order_id) = .ok "SE-1" ∧
    (Content.newRecord Content.validOrder Content.v497 "SE-1" "t").status =
      "processing" ∧
    (Content.newRecord Content.validOrder Content.v497 "SE-1" "t").files = [] ∧
    (Content.newRecord Content.validOrder Content.v497 "SE-1" "t").download_path =
      none :=
  C8_creation_status_and_async.2.1 [] Content.validOrder "SE-1" "t"
    Content.v497 (by decide)

/-- Claim C9, counterexample: `list_orders` of `src/api.py` returns the store
in insertion order — the head of the listing of the seeded store is the oldest
order `ORD-0001`, while the strictly newer `SUB-0002` is further down, so the
listing is not newest-first. -/
theorem C9_counterexample :
    (Api.list_orders Api.initialOrdersDb).head? = some Api.ord1 ∧
    Api.sub2 ∈ Api.list_orders Api.initialOrdersDb ∧
    Api.ord1.created_at.data < Api.sub2.created_at.data := by
  decide

/-- Claim C9 (amended): the database-backed `list_orders` returns exactly the
orders matching the optional status filter, sorted by creation time newest
first, and rejects an unknown status value with an error; the in-memory
`src/api.py` variant instead returns the raw store in insertion order with no
filter. -/
theorem C9_db_list_orders :
    (∀ (s : EmailApi.DbState) (str : String) (st : EmailApi.OrderStatus)
        (l : List EmailApi.EmailOrder),
      EmailApi.OrderStatus.ofString? str = some st →
      EmailApi.list_orders s (some str) = .ok l →
      List.Perm l (s.orders.filter (fun o => o.status == st)) ∧
        List.Sorted EmailApi.newestFirst l) ∧
    (∀ (s : EmailApi.DbState) (l : List EmailApi.EmailOrder),
      EmailApi.list_orders s none = .ok l →
      List.Perm l s.orders ∧ List.Sorted EmailApi.newestFirst l) ∧
    (∀ (s : EmailApi.DbState) (str : String),
      EmailApi.OrderStatus.ofString? str = none →
      EmailApi.list_orders s (some str) = .error (.invalidStatus str)) := by
  refine ⟨?_, ?_, ?_⟩
  · intro s str st l hp hl
    simp only [EmailApi.list_orders, hp] at hl
    injection hl with hl2
    subst hl2
    exact ⟨List.perm_insertionSort _ _, List.sorted_insertionSort _ _⟩
  · intro s l hl
    simp only [EmailApi.list_orders] at hl
    injection hl with hl2
    subst hl2
    exact ⟨List.perm_insertionSort _ _, List.sorted_insertionSort _ _⟩
  · intro s str hp
    simp [EmailApi.list_orders, hp]

/-- Claim C9, witness: on a concrete three-order store filtered by `pending`,
the listing is the two pending orders, newest first. -/
theorem C9_witness :
    List.Perm EmailApi.lw
      (EmailApi.s9.orders.filter
        (fun o => o.status == EmailApi.OrderStatus.PENDING)) ∧
    List.Sorted EmailApi.newestFirst EmailApi.lw :=
  C9_db_list_orders.1 EmailApi.s9 "pending" .PENDING EmailApi.lw (by decide)
    (by decide)
